import Mathlib

/-!
Verification of the micropython-manager device communication engine.

The definitions below are shallow embeddings of the TypeScript sources:
  - `DMClean` models `src/deviceManager_clean.ts` (the queued DeviceManager);
  - `DM` models `src/deviceManager.ts` (the original DeviceManager);
  - `FM` models `src/fileManager.ts`;
  - `REPL` models the `REPLManager` validation battery.
JavaScript strings are modelled by `String`; `String.prototype.includes`,
`endsWith` and `slice(0,-1)` are modelled by explicit functions over
`List Char` so that everything is executable and decidable.
-/

namespace JsStr

/-- `listHasPrefix pat l` is `true` when `pat` occurs at the front of `l`. -/
def listHasPrefix : List Char → List Char → Bool
  | [], _ => true
  | _ :: _, [] => false
  | p :: ps, c :: cs => p == c && listHasPrefix ps cs

/-- `listContains hay pat` is `true` when `pat` occurs somewhere inside `hay`
(the model of JavaScript `hay.includes(pat)`). -/
def listContains : List Char → List Char → Bool
  | [], pat => pat.isEmpty
  | c :: cs, pat => listHasPrefix pat (c :: cs) || listContains cs pat

/-- Model of JavaScript `s.includes(pat)`. -/
def includes (s pat : String) : Bool := listContains s.data pat.data

/-- `listHasSuffix pat l` is `true` when `pat` occurs at the end of `l`. -/
def listHasSuffix (pat l : List Char) : Bool := listHasPrefix pat.reverse l.reverse

/-- Model of JavaScript `s.endsWith(pat)`. -/
def endsWith (s pat : String) : Bool := listHasSuffix pat.data s.data

/-- Model of JavaScript `s.slice(0, -1)` (drop the final character). -/
def dropLast (s : String) : String := String.mk s.data.dropLast

theorem listHasPrefix_refl (l : List Char) : listHasPrefix l l = true := by
  induction l with
  | nil => rfl
  | cons c cs ih => simp [listHasPrefix, ih]

theorem listHasPrefix_append (l t : List Char) : listHasPrefix l (l ++ t) = true := by
  induction l with
  | nil => rfl
  | cons c cs ih => simp [listHasPrefix, ih]

/-- A pattern sitting at the end of a list is found by `listContains`. -/
theorem listContains_append_left (a pat : List Char) :
    listContains (a ++ pat) pat = true := by
  induction a with
  | nil =>
      cases pat with
      | nil => rfl
      | cons p ps => simp [listContains, listHasPrefix_append, listHasPrefix_refl]
  | cons c cs ih => simp [listContains, ih]

theorem listContains_nil (l : List Char) : listContains l [] = true := by
  cases l <;> rfl

/-- A pattern somewhere in the middle is found by `listContains`. -/
theorem listContains_append_both (a pat b : List Char) :
    listContains (a ++ pat ++ b) pat = true := by
  induction a with
  | nil =>
      cases pat with
      | nil => simpa using listContains_nil b
      | cons p ps =>
          simp only [List.nil_append, List.cons_append]
          simp [listContains, listHasPrefix, List.append_assoc, listHasPrefix_append]
  | cons c cs ih =>
      simp only [listContains, List.cons_append, Bool.or_eq_true]
      right
      simpa [List.append_assoc] using ih

theorem includes_append_left (a pat : String) :
    includes (a ++ pat) pat = true := by
  simp [includes, String.data_append, listContains_append_left]

theorem listHasSuffix_append (l pat : List Char) :
    listHasSuffix pat (l ++ pat) = true := by
  simp [listHasSuffix, List.reverse_append, listHasPrefix_append]

theorem endsWith_append (s pat : String) : endsWith (s ++ pat) pat = true := by
  simp [endsWith, String.data_append, listHasSuffix_append]

end JsStr

namespace JsStr

theorem listHasPrefix_append_cancel (q a b : List Char) :
    listHasPrefix (q ++ a) (q ++ b) = listHasPrefix a b := by
  induction q with
  | nil => rfl
  | cons c cs ih => simp [listHasPrefix, ih]

/-- Appending the same text on the right preserves `endsWith`. -/
theorem endsWith_append_right (s pat t : String) (h : endsWith s pat = true) :
    endsWith (s ++ t) (pat ++ t) = true := by
  simp only [endsWith, listHasSuffix, String.data_append, List.reverse_append] at h ⊢
  rw [listHasPrefix_append_cancel]
  exact h

end JsStr

/-!
## The per-device command queue of `src/deviceManager_clean.ts`

`executeCommand` (lines 171-188) pushes `{command, resolve, reject}` onto the
per-device array `commandQueues.get(deviceId)` and kicks `processCommandQueue`
when the `isProcessingQueue` flag is down.  `processCommandQueue`
(lines 193-245) shifts the head entry, subscribes a `data` listener on the
`ReadlineParser`, writes `command + '\r\n'` to the serial connection and then
waits for exactly one of:
  - a chunk containing `'>>>'` or `'...'`  → `cleanupAndResolve` (unsubscribe,
    resolve with all output accumulated since the write, recurse);
  - the 10 s timer                          → `cleanupAndReject` with a
    Timeout error (unsubscribe, recurse);
  - a write-callback error                  → `cleanupAndReject` (unsubscribe,
    recurse).
JavaScript is single threaded and the recursion happens only inside the
cleanup handlers, so the drain is a sequential loop over the queue.  We embed
the loop as a recursive function from the queued entries (each paired with
the device's behaviour for it) to the trace of observable events.
-/

namespace DMClean

/-- One `{command, resolve, reject}` element of `commandQueues.get(deviceId)`;
the completion callbacks are modelled by recording events carrying `id`. -/
structure Entry where
  id : Nat
  command : String
  deriving Repr, DecidableEq

/-- How the device behaves for one written command: either the transport
write errors, or the parser delivers `chunks` before the 10 s deadline. -/
inductive DeviceResp
  | writeErr
  | chunks (cs : List String)
  deriving Repr, DecidableEq

/-- Rejection reasons of `processCommandQueue`. -/
inductive QErr
  | timeout
  | transportWrite
  deriving Repr, DecidableEq

/-- Observable events of the drain loop, in order:
`sub` = `parser.on('data', onData)`, `write` = `connection.write(...)`,
`unsub` = `parser.off('data', onData)`, then the resolution of the entry. -/
inductive Ev
  | sub (id : Nat)
  | write (id : Nat) (payload : String)
  | unsub (id : Nat)
  | resolved (id : Nat) (output : String)
  | rejected (id : Nat) (err : QErr)
  deriving Repr, DecidableEq

/-- The prompt check of `onData` (line 215):
`data.includes('>>>') || data.includes('...')`. -/
def promptChunk (data : String) : Bool :=
  JsStr.includes data ">>>" || JsStr.includes data "..."

/-- `onData` accumulation (lines 212-218): `output += data`, resolving with
the accumulated output when a chunk contains a prompt marker; `none` means no
chunk contained a marker, so the 10 s timeout fires. -/
def captureOutput (acc : String) : List String → Option String
  | [] => none
  | c :: cs =>
      if promptChunk c then some (acc ++ c) else captureOutput (acc ++ c) cs

/-- The payload written for an entry (line 240): `command + '\r\n'`. -/
def writePayload (command : String) : String := command ++ "\r\n"

/-- The completion event of one entry under a device behaviour. -/
def entryCompletion (e : Entry) (r : DeviceResp) : Ev :=
  match r with
  | .writeErr => .rejected e.id .transportWrite
  | .chunks cs =>
      match captureOutput "" cs with
      | some out => .resolved e.id out
      | none => .rejected e.id .timeout

/-- The four events produced while one entry is in flight. -/
def entryEvents (e : Entry) (r : DeviceResp) : List Ev :=
  [.sub e.id, .write e.id (writePayload e.command), .unsub e.id,
   entryCompletion e r]

/-- The drain loop of `processCommandQueue`: shift the head entry, run it to
completion, recurse on the rest of the queue. -/
def processQueue : List (Entry × DeviceResp) → List Ev
  | [] => []
  | (e, r) :: rest => entryEvents e r ++ processQueue rest

/-- Ids of the write events of a trace, in order. -/
def writeIds (t : List Ev) : List Nat :=
  t.filterMap fun ev =>
    match ev with
    | .write i _ => some i
    | _ => none

/-- Ids of the completion (resolve/reject) events of a trace, in order. -/
def doneIds (t : List Ev) : List Nat :=
  t.filterMap fun ev =>
    match ev with
    | .resolved i _ => some i
    | .rejected i _ => some i
    | _ => none

/-- `c` completes entry `i` (either resolution). -/
def completes (i : Nat) (c : Ev) : Prop :=
  (∃ out, c = .resolved i out) ∨ (∃ err, c = .rejected i err)

/-- Specification-side trace shape: entries run strictly one after another —
subscribe, write, unsubscribe, complete — in the listed id order, with no
overlap between consecutive entries. -/
inductive SerialFIFO : List Nat → List Ev → Prop
  | nil : SerialFIFO [] []
  | step (i : Nat) (p : String) (c : Ev) (ids : List Nat) (t : List Ev) :
      completes i c → SerialFIFO ids t →
      SerialFIFO (i :: ids) (.sub i :: .write i p :: .unsub i :: c :: t)

/-- Submission order of a queue script. -/
def queueIds (script : List (Entry × DeviceResp)) : List Nat :=
  script.map fun x => x.1.id

theorem entryCompletion_completes (e : Entry) (r : DeviceResp) :
    completes e.id (entryCompletion e r) := by
  cases r with
  | writeErr => exact Or.inr ⟨QErr.transportWrite, rfl⟩
  | chunks cs =>
      cases h : captureOutput "" cs with
      | none => exact Or.inr ⟨QErr.timeout, by simp [entryCompletion, h]⟩
      | some out => exact Or.inl ⟨out, by simp [entryCompletion, h]⟩

theorem processQueue_append (a b : List (Entry × DeviceResp)) :
    processQueue (a ++ b) = processQueue a ++ processQueue b := by
  induction a with
  | nil => rfl
  | cons hd tl ih => cases hd; simp [processQueue, ih]

theorem writeIds_entry (e : Entry) (r : DeviceResp) (t : List Ev) :
    writeIds (entryEvents e r ++ t) = e.id :: writeIds t := by
  have h := entryCompletion_completes e r
  rcases h with ⟨out, hc⟩ | ⟨err, hc⟩ <;>
    simp [writeIds, entryEvents, hc]

theorem doneIds_entry (e : Entry) (r : DeviceResp) (t : List Ev) :
    doneIds (entryEvents e r ++ t) = e.id :: doneIds t := by
  have h := entryCompletion_completes e r
  rcases h with ⟨out, hc⟩ | ⟨err, hc⟩ <;>
    simp [doneIds, entryEvents, hc]

theorem writeIds_processQueue (script : List (Entry × DeviceResp)) :
    writeIds (processQueue script) = queueIds script := by
  induction script with
  | nil => rfl
  | cons hd tl ih =>
      cases hd with
      | mk e r => simp [processQueue, queueIds, writeIds_entry, ih]

theorem doneIds_processQueue (script : List (Entry × DeviceResp)) :
    doneIds (processQueue script) = queueIds script := by
  induction script with
  | nil => rfl
  | cons hd tl ih =>
      cases hd with
      | mk e r => simp [processQueue, queueIds, doneIds_entry, ih]

theorem serialFIFO_processQueue (script : List (Entry × DeviceResp)) :
    SerialFIFO (queueIds script) (processQueue script) := by
  induction script with
  | nil => exact SerialFIFO.nil
  | cons hd tl ih =>
      cases hd with
      | mk e r =>
          exact SerialFIFO.step e.id (writePayload e.command)
            (entryCompletion e r) (queueIds tl) (processQueue tl)
            (entryCompletion_completes e r) ih

end DMClean

/-- C1: for every device and every sequence of commands submitted via
`executeCommand` in order o1..on, the drain loop of `processCommandQueue`
writes the commands to the serial transport and completes (resolves or
rejects) them in exactly that submission order: it always takes the head of
the per-device queue, no entry starts (is subscribed/written) before the
previous one has resolved, rejected or timed out, and entries appended while
draining are processed strictly after the existing ones. -/
theorem C1_commands_execute_in_submission_order
    (script : List (DMClean.Entry × DMClean.DeviceResp)) :
    DMClean.SerialFIFO (DMClean.queueIds script) (DMClean.processQueue script) ∧
    DMClean.writeIds (DMClean.processQueue script) = DMClean.queueIds script ∧
    DMClean.doneIds (DMClean.processQueue script) = DMClean.queueIds script ∧
    (∀ more, DMClean.processQueue (script ++ more) =
      DMClean.processQueue script ++ DMClean.processQueue more) :=
  ⟨DMClean.serialFIFO_processQueue script,
   DMClean.writeIds_processQueue script,
   DMClean.doneIds_processQueue script,
   fun more => DMClean.processQueue_append script more⟩

/-- C2: a queue entry that fails (its 10-second deadline elapses with no
prompt chunk, or the transport write errors) never prevents later-enqueued
entries from executing: the failing entry's completion detector is
unsubscribed before it is rejected, draining proceeds to the next head
entry, and every later entry still gets written and completed, in order. -/
theorem C2_failed_entry_never_blocks_queue
    (pre : List (DMClean.Entry × DMClean.DeviceResp))
    (e : DMClean.Entry) (r : DMClean.DeviceResp)
    (post : List (DMClean.Entry × DMClean.DeviceResp))
    (hfail : ∃ err, DMClean.entryCompletion e r = DMClean.Ev.rejected e.id err) :
    DMClean.processQueue (pre ++ (e, r) :: post) =
      DMClean.processQueue pre ++ DMClean.entryEvents e r ++
        DMClean.processQueue post ∧
    (∃ err, DMClean.entryEvents e r =
      [DMClean.Ev.sub e.id,
       DMClean.Ev.write e.id (DMClean.writePayload e.command),
       DMClean.Ev.unsub e.id, DMClean.Ev.rejected e.id err]) ∧
    DMClean.doneIds (DMClean.processQueue (pre ++ (e, r) :: post)) =
      DMClean.queueIds pre ++ e.id :: DMClean.queueIds post := by
  obtain ⟨err, herr⟩ := hfail
  refine ⟨?_, ⟨err, ?_⟩, ?_⟩
  · rw [DMClean.processQueue_append]
    simp [DMClean.processQueue, List.append_assoc]
  · simp [DMClean.entryEvents, herr]
  · rw [DMClean.processQueue_append]
    have hsplit : DMClean.processQueue ((e, r) :: post) =
        DMClean.entryEvents e r ++ DMClean.processQueue post := rfl
    rw [hsplit]
    have h1 := DMClean.doneIds_processQueue pre
    have h2 := DMClean.doneIds_processQueue post
    have h3 := DMClean.doneIds_entry e r (DMClean.processQueue post)
    unfold DMClean.doneIds at h1 h2 h3 ⊢
    rw [List.filterMap_append, h1, h3, h2]

/-- Witness for C2 at a concrete queue: entry 0 fails with a transport write
error, entry 1 still completes; completions are `[0, 1]`. -/
theorem C2_failed_entry_never_blocks_queue_witness :
    DMClean.processQueue ([] ++ (⟨0, "print(1)"⟩, DMClean.DeviceResp.writeErr) ::
        [(⟨1, "print(2)"⟩, DMClean.DeviceResp.chunks ["2", ">>> "])]) =
      DMClean.processQueue [] ++
        DMClean.entryEvents ⟨0, "print(1)"⟩ DMClean.DeviceResp.writeErr ++
        DMClean.processQueue
          [(⟨1, "print(2)"⟩, DMClean.DeviceResp.chunks ["2", ">>> "])] ∧
    DMClean.doneIds (DMClean.processQueue
        ([] ++ (⟨0, "print(1)"⟩, DMClean.DeviceResp.writeErr) ::
          [(⟨1, "print(2)"⟩, DMClean.DeviceResp.chunks ["2", ">>> "])])) =
      DMClean.queueIds [] ++ 0 ::
        DMClean.queueIds [(⟨1, "print(2)"⟩, DMClean.DeviceResp.chunks ["2", ">>> "])] :=
  ⟨(C2_failed_entry_never_blocks_queue [] ⟨0, "print(1)"⟩
      DMClean.DeviceResp.writeErr
      [(⟨1, "print(2)"⟩, DMClean.DeviceResp.chunks ["2", ">>> "])]
      ⟨DMClean.QErr.transportWrite, rfl⟩).1,
   (C2_failed_entry_never_blocks_queue [] ⟨0, "print(1)"⟩
      DMClean.DeviceResp.writeErr
      [(⟨1, "print(2)"⟩, DMClean.DeviceResp.chunks ["2", ">>> "])]
      ⟨DMClean.QErr.transportWrite, rfl⟩).2.2⟩

/-!
## `disconnectDevice` of `src/deviceManager_clean.ts` (lines 448-473)

The method looks the device up (returning silently when absent), closes the
serial connection when open, disposes the output channel, and then deletes
the device from all six per-device maps — including `commandQueues`, whose
still-queued `{command, resolve, reject}` entries are simply dropped: no
callback of any queued entry is invoked on this path.
-/

namespace DMClean

/-- The slice of manager state relevant to one device id:
whether `devices` has the id, whether its connection is open, the queued
entries, whether `commandQueues` still has the id, and the ids of entries
whose `reject` callback has been invoked so far. -/
structure ManagerState where
  registered : Bool
  connIsOpen : Bool
  queue : List Entry
  hasQueue : Bool
  rejectedIds : List Nat
  deriving Repr, DecidableEq

/-- `disconnectDevice` (lines 448-473): no-op when the device is not in
`devices`; otherwise close the open connection, dispose the channel, and
delete the id from every map.  The queued entries are deleted with the
`commandQueues` entry; their callbacks are not invoked (`rejectedIds` is
unchanged). -/
def disconnectDevice (s : ManagerState) : ManagerState :=
  if s.registered then
    { registered := false
      connIsOpen := false
      queue := []
      hasQueue := false
      rejectedIds := s.rejectedIds }
  else s

end DMClean

/-- C3 counterexample: a connected device with k = 1 still-queued entry.
`disconnectDevice` removes the queue but invokes no reject callback, so the
entry is *not* rejected with a NotConnected error as the claim states —
`rejectedIds` stays empty while the claim requires the queued entry's id in
it. -/
theorem C3_counterexample :
    (DMClean.disconnectDevice
        ⟨true, true, [⟨0, "print(1)"⟩], true, []⟩).rejectedIds = [] ∧
    ¬ (0 ∈ (DMClean.disconnectDevice
        ⟨true, true, [⟨0, "print(1)"⟩], true, []⟩).rejectedIds) ∧
    (DMClean.ManagerState.queue ⟨true, true, [⟨0, "print(1)"⟩], true, []⟩).length = 1 := by
  refine ⟨rfl, ?_, rfl⟩
  intro h
  simp [DMClean.disconnectDevice] at h

/-- C3 (amended): calling `disconnectDevice` on a registered device closes
the transport, removes the device and its command queue from the registry
(leaving no entry queued afterward), but the k still-queued entries are
dropped without any rejection being delivered: no reject callback runs, so
they are abandoned rather than rejected with a NotConnected error. -/
theorem C3_disconnect_drops_queue_without_rejecting
    (s : DMClean.ManagerState) (h : s.registered = true) :
    (DMClean.disconnectDevice s).registered = false ∧
    (DMClean.disconnectDevice s).connIsOpen = false ∧
    (DMClean.disconnectDevice s).hasQueue = false ∧
    (DMClean.disconnectDevice s).queue = [] ∧
    (DMClean.disconnectDevice s).rejectedIds = s.rejectedIds := by
  simp [DMClean.disconnectDevice, h]

/-- Witness for C3's amended theorem at a concrete registered device with
one queued entry. -/
theorem C3_disconnect_drops_queue_without_rejecting_witness :
    (DMClean.disconnectDevice ⟨true, true, [⟨0, "print(1)"⟩], true, []⟩).registered = false ∧
    (DMClean.disconnectDevice ⟨true, true, [⟨0, "print(1)"⟩], true, []⟩).connIsOpen = false ∧
    (DMClean.disconnectDevice ⟨true, true, [⟨0, "print(1)"⟩], true, []⟩).hasQueue = false ∧
    (DMClean.disconnectDevice ⟨true, true, [⟨0, "print(1)"⟩], true, []⟩).queue = [] ∧
    (DMClean.disconnectDevice ⟨true, true, [⟨0, "print(1)"⟩], true, []⟩).rejectedIds =
      DMClean.ManagerState.rejectedIds ⟨true, true, [⟨0, "print(1)"⟩], true, []⟩ :=
  C3_disconnect_drops_queue_without_rejecting
    ⟨true, true, [⟨0, "print(1)"⟩], true, []⟩ rfl

/-!
## `executeCommand` of `src/deviceManager.ts` (lines 237-282)

This variant does not queue or read output; it normalizes the command's line
terminator and writes it.  Lines 250-258:
```
let formattedCommand = command;
if (!command.endsWith('\r\n') && !command.endsWith('\n')) {
    formattedCommand = command + '\r\n';
} else if (command.endsWith('\n') && !command.endsWith('\r\n')) {
    formattedCommand = command.slice(0, -1) + '\r\n';
}
```
-/

namespace DM

/-- The payload `deviceManager.ts`'s `executeCommand` writes for `command`. -/
def formatCommand (command : String) : String :=
  if !(JsStr.endsWith command "\r\n") && !(JsStr.endsWith command "\n") then
    command ++ "\r\n"
  else if JsStr.endsWith command "\n" && !(JsStr.endsWith command "\r\n") then
    JsStr.dropLast command ++ "\r\n"
  else
    command

/-- The claim's summary predicate: the payload ends in exactly one
carriage-return+linefeed terminator (and not a doubled one). -/
def endsInExactlyOneCRLF (s : String) : Bool :=
  JsStr.endsWith s "\r\n" && !(JsStr.endsWith s "\r\n\r\n")

end DM

/-- C10 counterexample: a command that already ends in a doubled terminator
is written unchanged, so the written payload ends in `"\r\n\r\n"` — not in
exactly one `"\r\n"` as the claim concludes. -/
theorem C10_counterexample :
    DM.formatCommand "print(1)\r\n\r\n" = "print(1)\r\n\r\n" ∧
    DM.endsInExactlyOneCRLF (DM.formatCommand "print(1)\r\n\r\n") = false := by
  constructor
  · rfl
  · decide

/-- C10 (amended): `deviceManager.ts`'s `executeCommand` writes the command
with its line terminator normalized and nothing else changed — no trailing
newline gets `"\r\n"` appended, a bare trailing `"\n"` is replaced by
`"\r\n"`, and a command already ending in `"\r\n"` is written unchanged —
so every written payload ends in (at least one) `"\r\n"`, though a command
already carrying a doubled terminator keeps it; the `deviceManager_clean.ts`
drain loop instead writes `command + '\r\n'` unconditionally, which doubles
the terminator of an already-terminated command. -/
theorem C10_terminator_normalization (command : String) :
    (JsStr.endsWith command "\r\n" = false → JsStr.endsWith command "\n" = false →
      DM.formatCommand command = command ++ "\r\n") ∧
    (JsStr.endsWith command "\n" = true → JsStr.endsWith command "\r\n" = false →
      DM.formatCommand command = JsStr.dropLast command ++ "\r\n") ∧
    (JsStr.endsWith command "\r\n" = true → DM.formatCommand command = command) ∧
    JsStr.endsWith (DM.formatCommand command) "\r\n" = true ∧
    DMClean.writePayload command = command ++ "\r\n" ∧
    (JsStr.endsWith command "\r\n" = true →
      JsStr.endsWith (DMClean.writePayload command) "\r\n\r\n" = true) := by
  refine ⟨?_, ?_, ?_, ?_, rfl, ?_⟩
  · intro h1 h2
    simp [DM.formatCommand, h1, h2]
  · intro h2 h1
    simp [DM.formatCommand, h1, h2]
  · intro h1
    simp [DM.formatCommand, h1]
  · cases h1 : JsStr.endsWith command "\r\n" <;>
      cases h2 : JsStr.endsWith command "\n" <;>
      simp [DM.formatCommand, h1, h2, JsStr.endsWith_append]
  · intro h1
    have h := JsStr.endsWith_append_right command "\r\n" "\r\n" h1
    have heq : ("\r\n" ++ "\r\n" : String) = "\r\n\r\n" := rfl
    rw [heq] at h
    exact h

/-- Witness for C10's amended theorem: a command with a bare `"\n"` has it
replaced by `"\r\n"`. -/
theorem C10_terminator_normalization_witness :
    JsStr.endsWith "print(2)\n" "\n" = true ∧
    JsStr.endsWith "print(2)\n" "\r\n" = false ∧
    DM.formatCommand "print(2)\n" = JsStr.dropLast "print(2)\n" ++ "\r\n" :=
  ⟨by decide, by decide,
   (C10_terminator_normalization "print(2)\n").2.1 (by decide) (by decide)⟩

/-!
## `REPLManager.validateMicroPythonEnvironment` (part_005, lines 352-398)

Five probes: an empty command expecting the `'>>>'` prompt (short-circuits
the whole validation when it fails), then `print(1+1)` (output must contain
`'2'`), `import sys`, `import micropython` and `import machine` (whose
lowercased outputs must not contain `'error'`).  The verdict is
`issues.length < 2` — at most one failing probe is tolerated — and when
invalid a summary line is unshifted in front of the collected issues.
-/

namespace JsStr

/-- Model of JavaScript `s.toLowerCase()` (ASCII behaviour suffices for the
probe outputs checked here). -/
def toLower (s : String) : String := String.mk (s.data.map Char.toLower)

end JsStr

namespace REPL

def issuePrompt : String := "Dispositivo não responde com o prompt \">>>\" do REPL."

def issueMath : String := "Interpretador Python não processa comandos matemáticos."

def issueImport : String := "Sistema de imports do Python não está funcionando."

def issueMicropython : String := "Módulo \"micropython\" não disponível."

def issueMachine : String := "Módulo \"machine\" não disponível."

/-- The summary line unshifted when validation fails. -/
def summaryIssue (n : Nat) : String :=
  "Muitas validações falharam (" ++ toString n ++ ")."

/-- The issues collected by probes 2-5, in push order. -/
def failedProbes (mathOut importOut mpOut machineOut : String) : List String :=
  (if !(JsStr.includes mathOut "2") then [issueMath] else []) ++
  (if JsStr.includes (JsStr.toLower importOut) "error" then [issueImport] else []) ++
  (if JsStr.includes (JsStr.toLower mpOut) "error" then [issueMicropython] else []) ++
  (if JsStr.includes (JsStr.toLower machineOut) "error" then [issueMachine] else [])

/-- How many of the four post-prompt probe checks fail (specification-side
count, independent of the issue strings). -/
def failCount (mathOut importOut mpOut machineOut : String) : Nat :=
  (if !(JsStr.includes mathOut "2") then 1 else 0) +
  (if JsStr.includes (JsStr.toLower importOut) "error" then 1 else 0) +
  (if JsStr.includes (JsStr.toLower mpOut) "error" then 1 else 0) +
  (if JsStr.includes (JsStr.toLower machineOut) "error" then 1 else 0)

/-- `validateMicroPythonEnvironment`: arguments are the outputs captured for
the five probes (empty command, `print(1+1)`, `import sys`,
`import micropython`, `import machine`); returns `(isValid, issues)`. -/
def validateMicroPythonEnvironment
    (enterOut mathOut importOut mpOut machineOut : String) : Bool × List String :=
  if !(JsStr.includes enterOut ">>>") then (false, [issuePrompt])
  else
    let issues := failedProbes mathOut importOut mpOut machineOut
    if issues.length < 2 then (true, issues)
    else (false, summaryIssue issues.length :: issues)

theorem failedProbes_length (mathOut importOut mpOut machineOut : String) :
    (failedProbes mathOut importOut mpOut machineOut).length =
      failCount mathOut importOut mpOut machineOut := by
  unfold failedProbes failCount
  split <;> split <;> split <;> split <;> rfl

end REPL

/-- C5 counterexample: exactly 2 of the 5 probes fail (`print(1+1)` echoes
no `'2'`, `import sys` reports an error; prompt, `import micropython` and
`import machine` pass), yet validation reports invalid — not valid as the
claim states — and surfaces three issue lines (a summary plus the two),
not exactly those 2. -/
theorem C5_counterexample :
    (REPL.validateMicroPythonEnvironment ">>> " "" "Error: x" ">>>" ">>>").1 = false ∧
    (REPL.validateMicroPythonEnvironment ">>> " "" "Error: x" ">>>" ">>>").2 =
      [REPL.summaryIssue 2, REPL.issueMath, REPL.issueImport] ∧
    REPL.failCount "" "Error: x" ">>>" ">>>" = 2 := by
  refine ⟨by decide, ?_, by decide⟩
  decide

/-- C5 (amended): the connect-time validation battery of five capability
probes tolerates at most ONE failing probe, not a majority pass-ratio: a
failing prompt probe short-circuits to invalid with that single issue; with
at most 1 of the remaining 4 probes failing it reports valid and surfaces
exactly the failing probes' issues; with 2 or more failing it reports
invalid and surfaces those issues preceded by a summary line.  In
particular validity (given a responsive prompt) is equivalent to a fail
count of at most 1. -/
theorem C5_validation_tolerates_at_most_one_failure
    (enterOut mathOut importOut mpOut machineOut : String) :
    (JsStr.includes enterOut ">>>" = false →
      REPL.validateMicroPythonEnvironment enterOut mathOut importOut mpOut machineOut =
        (false, [REPL.issuePrompt])) ∧
    (JsStr.includes enterOut ">>>" = true →
      ((REPL.validateMicroPythonEnvironment enterOut mathOut importOut mpOut machineOut).1 = true ↔
        REPL.failCount mathOut importOut mpOut machineOut ≤ 1) ∧
      (REPL.failCount mathOut importOut mpOut machineOut ≤ 1 →
        REPL.validateMicroPythonEnvironment enterOut mathOut importOut mpOut machineOut =
          (true, REPL.failedProbes mathOut importOut mpOut machineOut)) ∧
      (2 ≤ REPL.failCount mathOut importOut mpOut machineOut →
        REPL.validateMicroPythonEnvironment enterOut mathOut importOut mpOut machineOut =
          (false, REPL.summaryIssue (REPL.failCount mathOut importOut mpOut machineOut) ::
            REPL.failedProbes mathOut importOut mpOut machineOut))) := by
  constructor
  · intro h
    simp [REPL.validateMicroPythonEnvironment, h]
  · intro h
    have hlen := REPL.failedProbes_length mathOut importOut mpOut machineOut
    refine ⟨?_, ?_, ?_⟩
    · by_cases hc : REPL.failCount mathOut importOut mpOut machineOut ≤ 1
      · simp [REPL.validateMicroPythonEnvironment, h, hlen, Nat.lt_succ_iff, hc]
      · simp [REPL.validateMicroPythonEnvironment, h, hlen, Nat.lt_succ_iff, hc]
    · intro hc
      simp [REPL.validateMicroPythonEnvironment, h, hlen, Nat.lt_succ_iff, hc]
    · intro hc
      have hc' : ¬ REPL.failCount mathOut importOut mpOut machineOut ≤ 1 := by omega
      simp [REPL.validateMicroPythonEnvironment, h, hlen, Nat.lt_succ_iff, hc']

/-- Witness for C5's amended theorem: with exactly one probe failing
(`print(1+1)` echoes no `'2'`), validation is valid and surfaces exactly
that issue. -/
theorem C5_validation_tolerates_at_most_one_failure_witness :
    JsStr.includes ">>> " ">>>" = true ∧
    REPL.failCount "" ">>>" ">>>" ">>>" ≤ 1 ∧
    REPL.validateMicroPythonEnvironment ">>> " "" ">>>" ">>>" ">>>" =
      (true, REPL.failedProbes "" ">>>" ">>>" ">>>") :=
  ⟨by decide, by decide,
   ((C5_validation_tolerates_at_most_one_failure ">>> " "" ">>>" ">>>" ">>>").2
     (by decide)).2.1 (by decide)⟩

/-!
## `connectDevice` / `detectMicroPython` / `disconnectDevice` of
`src/deviceManager.ts` (lines 65-147, 156-190, 195-218)

`connectDevice` derives the device id from the port path, then iterates the
candidate baud list (`[115200, 9600, 57600]`, or the single caller-supplied
rate).  For each candidate it constructs a `SerialPort` and opens it; an
open error raises, is caught, and the loop continues with the next
candidate.  Once a candidate opens, `detectMicroPython` accumulates parser
chunks for up to 3 s looking for the `'MicroPython'`/`'micropython'` marker
and resolves the version token (regex `MicroPython v(\d+\.\d+\.\d+)` or
`'Detectado'`) — or resolves `undefined` on timeout; it never rejects.  The
device is then registered and returned regardless of the detection result,
and nothing in the loop body after a successful open can continue to the
next candidate or close the port.
-/

namespace DM

/-- `esp32_${portPath.replace(/[^a-zA-Z0-9]/g, '_')}` (line 66). -/
def deriveDeviceId (portPath : String) : String :=
  "esp32_" ++ String.mk (portPath.data.map fun c => if c.isAlphanum then c else '_')

/-- Maximal leading digit run of a character list. -/
def takeDigits : List Char → List Char × List Char
  | [] => ([], [])
  | c :: cs =>
      if c.isDigit then
        let p := takeDigits cs
        (c :: p.1, p.2)
      else ([], c :: cs)

/-- Match `\d+\.\d+\.\d+` at the head of the list, returning the token. -/
def versionAt (cs : List Char) : Option (List Char) :=
  let p1 := takeDigits cs
  if p1.1.isEmpty then none
  else
    match p1.2 with
    | '.' :: r2 =>
        let p2 := takeDigits r2
        if p2.1.isEmpty then none
        else
          match p2.2 with
          | '.' :: r4 =>
              let p3 := takeDigits r4
              if p3.1.isEmpty then none
              else some (p1.1 ++ '.' :: p2.1 ++ '.' :: p3.1)
          | _ => none
    | _ => none

/-- Leftmost match of `/MicroPython v(\d+\.\d+\.\d+)/`: scan each start
position; where the literal prefix matches, try the version tail, else keep
scanning (regex backtracking). -/
def findVersion : List Char → Option String
  | [] => none
  | c :: cs =>
      if JsStr.listHasPrefix "MicroPython v".data (c :: cs) then
        match versionAt ((c :: cs).drop "MicroPython v".data.length) with
        | some tok => some (String.mk tok)
        | none => findVersion cs
      else findVersion cs

/-- Lines 145-146: extract the version from the accumulated response, or
fall back to `'Detectado'`. -/
def extractVersion (responseData : String) : String :=
  (findVersion responseData.data).getD "Detectado"

/-- `detectMicroPython`'s `onData` (lines 161-171): accumulate chunks; the
first time the accumulated data contains the marker, resolve the version;
if no prefix of the chunk stream ever contains it, the 3 s timer resolves
`undefined` (`none`).  This promise never rejects. -/
def detectAccum (acc : String) : List String → Option String
  | [] => none
  | c :: cs =>
      let acc' := acc ++ c
      if JsStr.includes acc' "MicroPython" || JsStr.includes acc' "micropython" then
        some (extractVersion acc')
      else detectAccum acc' cs

/-- `detectMicroPython` over the chunks delivered within the bounded wait. -/
def detectMicroPython (chunks : List String) : Option String :=
  detectAccum "" chunks

/-- One `SerialPort` object constructed by the candidate loop. -/
structure Port where
  path : String
  baudRate : Nat
  isOpen : Bool
  deriving Repr, DecidableEq

/-- The `ESP32Device` record registered on success (`lastActivity` and the
display name's Date are irrelevant to the claims and omitted). -/
structure Device where
  id : String
  name : String
  port : String
  baudRate : Nat
  isConnected : Bool
  micropythonVersion : Option String
  deriving Repr, DecidableEq

/-- The registry slice of `DeviceManager`: the `devices` and `connections`
maps plus every `SerialPort` object constructed so far (in creation order,
`connections` referring to them by index). -/
structure RegState where
  devices : List (String × Device)
  connections : List (String × Nat)
  ports : List Port
  deriving Repr, DecidableEq

/-- JavaScript `Map.prototype.set`: overwrite in place or append. -/
def setAssoc {α : Type} : List (String × α) → String → α → List (String × α)
  | [], k, v => [(k, v)]
  | (k', v') :: rest, k, v =>
      if k' == k then (k, v) :: rest else (k', v') :: setAssoc rest k v

/-- JavaScript `Map.prototype.get`. -/
def getAssoc {α : Type} : List (String × α) → String → Option α
  | [], _ => none
  | (k', v') :: rest, k => if k' == k then some v' else getAssoc rest k

/-- JavaScript `Map.prototype.delete` (keys are unique). -/
def delAssoc {α : Type} : List (String × α) → String → List (String × α)
  | [], _ => []
  | (k', v') :: rest, k => if k' == k then rest else (k', v') :: delAssoc rest k

/-- Behaviour of the physical port at one candidate baud rate: whether
`serialPort.open` succeeds, and the chunks the parser would deliver during
the detection window. -/
structure CandidateEnv where
  openOk : Bool
  chunks : List String

/-- The `for (const baudRate of baudRates)` loop of `connectDevice`
(lines 51-125 of the clean variant; 71-143 of `deviceManager.ts` — the two
are identical here except for the extra queue maps): construct a
`SerialPort`; if `open` errors, catch and continue with the next candidate
(the failed handle is closed); once open, run detection and register the
device unconditionally, leaving the port open.  Registration overwrites
`devices`/`connections` entries for the id without closing any previously
registered transport. -/
def connectLoop (env : Nat → CandidateEnv) (portPath deviceId : String) :
    List Nat → RegState → RegState × Option Device
  | [], s => (s, none)
  | b :: rest, s =>
      if (env b).openOk then
        let version := detectMicroPython (env b).chunks
        let device : Device :=
          { id := deviceId
            name := "ESP32 (" ++ portPath ++ ")"
            port := portPath
            baudRate := b
            isConnected := true
            micropythonVersion := version }
        ({ devices := setAssoc s.devices deviceId device
           connections := setAssoc s.connections deviceId (s.ports).length
           ports := s.ports ++ [⟨portPath, b, true⟩] }, some device)
      else
        connectLoop env portPath deviceId rest
          { s with ports := s.ports ++ [⟨portPath, b, false⟩] }

/-- The default fast-first candidate list (line 69). -/
def defaultBaudRates : List Nat := [115200, 9600, 57600]

/-- `connectDevice(portPath, customBaudRate?)`. -/
def connectDevice (env : Nat → CandidateEnv) (portPath : String)
    (customBaudRate : Option Nat) (s : RegState) : RegState × Option Device :=
  connectLoop env portPath (deriveDeviceId portPath)
    (match customBaudRate with
     | some b => [b]
     | none => defaultBaudRates) s

/-- `disconnectDevice` (lines 195-218): no-op when the id is unregistered;
otherwise close the connection when open and delete the id from the maps. -/
def disconnectDevice (s : RegState) (deviceId : String) : RegState :=
  match getAssoc s.devices deviceId with
  | none => s
  | some _ =>
      let s1 :=
        match getAssoc s.connections deviceId with
        | some i =>
            match s.ports.get? i with
            | some p =>
                if p.isOpen then
                  { s with ports := s.ports.set i { p with isOpen := false } }
                else s
            | none => s
        | none => s
      { s1 with
          devices := delAssoc s1.devices deviceId
          connections := delAssoc s1.connections deviceId }

/-- Number of open `SerialPort` objects for a given port path. -/
def openPortsForPath (s : RegState) (path : String) : Nat :=
  (s.ports.filter fun p => p.path == path && p.isOpen).length

/-- First candidate baud rate whose open succeeds. -/
def firstOpenBaud (env : Nat → CandidateEnv) : List Nat → Option Nat
  | [] => none
  | b :: rest => if (env b).openOk then some b else firstOpenBaud env rest

/-- The empty registry. -/
def emptyReg : RegState := ⟨[], [], []⟩

end DM

example :
    (DM.connectDevice (fun _ => ⟨true, ["garbage, no marker"]⟩)
      "/dev/ttyUSB0" none DM.emptyReg).2 =
    some { id := "esp32__dev_ttyUSB0", name := "ESP32 (/dev/ttyUSB0)",
           port := "/dev/ttyUSB0", baudRate := 115200, isConnected := true,
           micropythonVersion := none } := by decide

example : DM.detectMicroPython ["MicroPython v1.20.0 on 2023-04-26"] =
    some "1.20.0" := by decide

example : DM.detectMicroPython ["blah micropython here"] = some "Detectado" := by
  decide

/-- C4 counterexample: the first candidate (115200) opens but the device
output never contains the `'MicroPython'`/`'micropython'` marker within the
bounded wait (`detectMicroPython` times out with `none`).  The claim says
the port must then be closed and the next candidate tried, and that only a
marker-producing candidate yields a registered connected device — but
`connectDevice` registers and returns a connected device at 115200 anyway,
leaving its port open. -/
theorem C4_counterexample :
    DM.detectMicroPython ["ESP-ROM:esp32s3-20210327"] = none ∧
    (DM.connectDevice (fun _ => ⟨true, ["ESP-ROM:esp32s3-20210327"]⟩)
        "/dev/ttyUSB0" none DM.emptyReg).2 =
      some { id := "esp32__dev_ttyUSB0", name := "ESP32 (/dev/ttyUSB0)",
             port := "/dev/ttyUSB0", baudRate := 115200, isConnected := true,
             micropythonVersion := none } ∧
    DM.openPortsForPath
      (DM.connectDevice (fun _ => ⟨true, ["ESP-ROM:esp32s3-20210327"]⟩)
        "/dev/ttyUSB0" none DM.emptyReg).1 "/dev/ttyUSB0" = 1 := by
  refine ⟨by decide, by decide, by decide⟩

/-- C4 (amended): during `connectDevice` over the candidate list
`[115200, 9600, 57600]`, a candidate is abandoned (its failed handle left
closed, the next candidate tried) only when *opening the port* fails;
absence of the interpreter marker does not close the port or advance the
loop.  The first candidate that opens yields a registered connected device
regardless of whether the marker was seen — its version is whatever
`detectMicroPython` produced (`none` when the marker never appeared) — with
exactly that one port open; exhausting the list (every open failing)
reports failure with no port left open. -/
theorem C4_connect_registers_first_openable_candidate
    (env : Nat → DM.CandidateEnv) (portPath : String) :
    ((DM.connectDevice env portPath none DM.emptyReg).2 = none ↔
      (env 115200).openOk = false ∧ (env 9600).openOk = false ∧
        (env 57600).openOk = false) ∧
    ((DM.connectDevice env portPath none DM.emptyReg).2 = none →
      DM.openPortsForPath (DM.connectDevice env portPath none DM.emptyReg).1
        portPath = 0) ∧
    (∀ d, (DM.connectDevice env portPath none DM.emptyReg).2 = some d →
      some d.baudRate = DM.firstOpenBaud env DM.defaultBaudRates ∧
      d.id = DM.deriveDeviceId portPath ∧
      d.isConnected = true ∧
      d.micropythonVersion = DM.detectMicroPython (env d.baudRate).chunks ∧
      DM.getAssoc (DM.connectDevice env portPath none DM.emptyReg).1.devices
        d.id = some d ∧
      DM.openPortsForPath (DM.connectDevice env portPath none DM.emptyReg).1
        portPath = 1) := by
  cases h1 : (env 115200).openOk <;> cases h2 : (env 9600).openOk <;>
    cases h3 : (env 57600).openOk <;>
    simp_all [DM.connectDevice, DM.connectLoop, DM.defaultBaudRates,
      DM.firstOpenBaud, DM.openPortsForPath, DM.getAssoc, DM.setAssoc,
      DM.emptyReg, List.filter]

/-- Witness for C4's amended theorem: with every candidate failing to open,
the connect call reports failure and no port is left open. -/
theorem C4_connect_registers_first_openable_candidate_witness :
    (DM.connectDevice (fun _ => ⟨false, []⟩) "/dev/ttyUSB0" none
        DM.emptyReg).2 = none ∧
    DM.openPortsForPath
      (DM.connectDevice (fun _ => ⟨false, []⟩) "/dev/ttyUSB0" none
        DM.emptyReg).1 "/dev/ttyUSB0" = 0 :=
  ⟨by decide,
   (C4_connect_registers_first_openable_candidate (fun _ => ⟨false, []⟩)
      "/dev/ttyUSB0").2.1 (by decide)⟩

/-- Environment in which every candidate baud rate opens and the device
identifies as MicroPython. -/
def c9EnvBoth : Nat → DM.CandidateEnv :=
  fun _ => ⟨true, ["MicroPython v1.20.0 on ESP32"]⟩

/-- Registry after a first successful `connectDevice` on `/dev/ttyUSB0`. -/
def c9State1 : DM.RegState :=
  (DM.connectDevice c9EnvBoth "/dev/ttyUSB0" none DM.emptyReg).1

/-- Registry after a second `connectDevice` on the same port (the OS having
allowed the second open). -/
def c9State2 : DM.RegState :=
  (DM.connectDevice c9EnvBoth "/dev/ttyUSB0" none c9State1).1

/-- C9 counterexample: a second `connectDevice` call on the same port
(deriving the same id) whose open succeeds leaves TWO open serial
transports for that id: the registry points at the new one (index 1) while
the first (index 0) remains open and orphaned — `connectDevice` contains no
already-connected guard and never closes the previous transport. -/
theorem C9_counterexample :
    DM.openPortsForPath c9State2 "/dev/ttyUSB0" = 2 ∧
    DM.getAssoc c9State2.connections "esp32__dev_ttyUSB0" = some 1 ∧
    c9State2.ports.get? 0 = some ⟨"/dev/ttyUSB0", 115200, true⟩ := by
  refine ⟨by decide, by decide, by decide⟩

theorem DM.connectLoop_id (rates : List Nat) (env : Nat → DM.CandidateEnv)
    (portPath deviceId : String) (s : DM.RegState) (d : DM.Device)
    (h : (DM.connectLoop env portPath deviceId rates s).2 = some d) :
    d.id = deviceId := by
  induction rates generalizing s with
  | nil => simp [DM.connectLoop] at h
  | cons b rest ih =>
      by_cases hb : (env b).openOk
      · simp [DM.connectLoop, hb] at h
        rw [← h]
      · simp only [DM.connectLoop, hb, if_false, Bool.false_eq_true] at h
        exact ih _ h

/-- C9 (amended): the id derived for a port path is a pure function of the
path (so a second `connectDevice` on the same port targets the same id, and
any registered device carries exactly that id — the id is never mutated);
but `connectDevice` has no guard against an existing registration: the
at-most-one-open-transport invariant is preserved only when every open at
the second call fails (as OS port exclusivity would make it), in which case
the call returns null and leaves the registry maps and the set of open
transports unchanged.  When the second open succeeds the previous transport
is left open and orphaned (see the counterexample). -/
theorem C9_reconnect_only_safe_when_open_fails
    (env : Nat → DM.CandidateEnv) (portPath : String) (s : DM.RegState)
    (h1 : (env 115200).openOk = false) (h2 : (env 9600).openOk = false)
    (h3 : (env 57600).openOk = false) :
    (DM.connectDevice env portPath none s).2 = none ∧
    (DM.connectDevice env portPath none s).1.devices = s.devices ∧
    (DM.connectDevice env portPath none s).1.connections = s.connections ∧
    DM.openPortsForPath (DM.connectDevice env portPath none s).1 portPath =
      DM.openPortsForPath s portPath ∧
    (∀ env' s' d, (DM.connectDevice env' portPath none s').2 = some d →
      d.id = DM.deriveDeviceId portPath) := by
  refine ⟨?_, ?_, ?_, ?_, ?_⟩
  · simp [DM.connectDevice, DM.connectLoop, DM.defaultBaudRates, h1, h2, h3]
  · simp [DM.connectDevice, DM.connectLoop, DM.defaultBaudRates, h1, h2, h3]
  · simp [DM.connectDevice, DM.connectLoop, DM.defaultBaudRates, h1, h2, h3]
  · simp [DM.connectDevice, DM.connectLoop, DM.defaultBaudRates, h1, h2, h3,
      DM.openPortsForPath, List.filter_append, List.filter]
  · intro env' s' d h
    exact DM.connectLoop_id _ env' portPath _ s' d h

/-- Witness for C9's amended theorem: reconnecting `/dev/ttyUSB0` when every
open fails leaves the registry of `c9State1` unchanged. -/
theorem C9_reconnect_only_safe_when_open_fails_witness :
    (DM.connectDevice (fun _ => ⟨false, []⟩) "/dev/ttyUSB0" none
        c9State1).2 = none ∧
    DM.openPortsForPath
      (DM.connectDevice (fun _ => ⟨false, []⟩) "/dev/ttyUSB0" none
        c9State1).1 "/dev/ttyUSB0" =
      DM.openPortsForPath c9State1 "/dev/ttyUSB0" :=
  ⟨(C9_reconnect_only_safe_when_open_fails (fun _ => ⟨false, []⟩)
      "/dev/ttyUSB0" c9State1 rfl rfl rfl).1,
   (C9_reconnect_only_safe_when_open_fails (fun _ => ⟨false, []⟩)
      "/dev/ttyUSB0" c9State1 rfl rfl rfl).2.2.2.1⟩

/-!
## Upload verification: `uploadFile` of `src/deviceManager_clean.ts`
(lines 250-285) and of `src/deviceManager.ts` (lines 291-345)

Both variants end with the verification command
`import os; print('<fileName>' in os.listdir())`.  The clean variant
captures that command's output (its `executeCommand` resolves with the
accumulated output) and throws unless it contains `'True'`.  The
`deviceManager.ts` variant's `executeCommand` returns `Promise<void>`,
resolving when the serial write completes — its upload issues the check but
never reads any device output, reporting success as long as the writes
succeed.
-/

namespace DMClean

/-- Hex digit used by the `\u00XX` escapes of `JSON.stringify`. -/
def hexDigit (n : Nat) : Char :=
  if n < 10 then Char.ofNat (48 + n) else Char.ofNat (97 + n - 10)

/-- Per-character escaping of `JSON.stringify` for string values. -/
def jsonEscapeChar (c : Char) : List Char :=
  if c = '"' then ['\\', '"']
  else if c = '\\' then ['\\', '\\']
  else if c = '\n' then ['\\', 'n']
  else if c = '\r' then ['\\', 'r']
  else if c = '\t' then ['\\', 't']
  else if c.toNat = 8 then ['\\', 'b']
  else if c.toNat = 12 then ['\\', 'f']
  else if c.toNat < 32 then
    ['\\', 'u', '0', '0', hexDigit (c.toNat / 16), hexDigit (c.toNat % 16)]
  else [c]

/-- `JSON.stringify` applied to a string value. -/
def jsonStringify (s : String) : String :=
  String.mk ('"' :: (s.data.flatMap jsonEscapeChar) ++ ['"'])

/-- The post-upload verification command (line 273). -/
def uploadCheckCommand (fileName : String) : String :=
  "import os; print('" ++ fileName ++ "' in os.listdir())"

/-- The remote write command (lines 265-269): the file content is embedded
as a doubly-stringified literal decoded by `ujson.loads`. -/
def uploadWriteCommand (fileName fileContent : String) : String :=
  "\nimport ujson\nwith open('" ++ fileName ++
    "', 'w') as f:\n    f.write(ujson.loads(" ++
    jsonStringify (jsonStringify fileContent) ++ "))\n"

/-- The four commands `uploadFile` submits to the queue, in order:
enter raw mode, remote write, exit raw mode, verification. -/
def uploadCommands (fileName fileContent : String) : List String :=
  ["\u0001", uploadWriteCommand fileName fileContent, "\u0002",
   uploadCheckCommand fileName]

/-- Outcome of the clean `uploadFile` given the output captured for the
verification command (lines 273-279; the catch at 281-284 wraps the
verification error, after re-sending `'\x02'`). -/
def uploadFile (checkOutput : String) : Except String Unit :=
  if JsStr.includes checkOutput "True" then Except.ok ()
  else
    Except.error
      "Erro no upload: Error: Falha na verificação do upload do arquivo."

end DMClean

namespace DM

/-- The line escaping of `deviceManager.ts`'s `uploadFile` (line 325):
`line.replace(/\\/g, '\\\\').replace(/'/g, "\\'")`. -/
def pyEscapeLine (line : String) : String :=
  String.mk (line.data.flatMap fun c =>
    if c = '\\' then ['\\', '\\']
    else if c = '\'' then ['\\', '\'']
    else [c])

/-- The commands `deviceManager.ts`'s `uploadFile` submits, in order
(lines 307-338): memory probe, enter paste mode, `with open(...)`, one
`f.write` per content line, exit paste mode, verification command. -/
def uploadCommandsOld (fileName : String) (contentLines : List String) :
    List String :=
  ["import gc; print('Mem livre:', gc.mem_free())\r\n", "\u0005",
   "with open('" ++ fileName ++ "', 'w') as f:"] ++
  (contentLines.map fun line =>
    "    f.write('" ++ pyEscapeLine line ++ "\\n')") ++
  ["\u0004", DMClean.uploadCheckCommand fileName]

/-- Outcome of `deviceManager.ts`'s `uploadFile`: its `executeCommand`
resolves on write completion without reading any device output, so the
upload succeeds whenever every write succeeds — the verification command's
output (`checkOutput`) is never consulted. -/
def uploadFileOld (writesOk : Bool) (_checkOutput : String) :
    Except String Unit :=
  if writesOk then Except.ok () else Except.error "Erro no upload"

end DM

/-- C6 counterexample: in the `deviceManager.ts` variant the device's
directory listing does *not* report the file (the check would print
`False`), yet `uploadFile` succeeds — the upload operation does not fail
when the check does not report the file as present, refuting the claim for
this cited variant.  The verification command is nevertheless the last
command issued. -/
theorem C6_counterexample :
    JsStr.includes "False\r\n>>> " "True" = false ∧
    DM.uploadFileOld true "False\r\n>>> " = Except.ok () ∧
    (DM.uploadCommandsOld "main.py" ["print(1)"]).getLast? =
      some (DMClean.uploadCheckCommand "main.py") := by
  refine ⟨by decide, rfl, rfl⟩

/-- C6 (amended): both upload variants issue the verification command
`import os; print('<fileName>' in os.listdir())` after the remote write
completes (it is the 4th and last queued command in the clean variant and
the last command in the `deviceManager.ts` variant).  The clean variant
fails (throws) exactly when the captured check output does not contain
`'True'`; the `deviceManager.ts` variant never consults the check's
output, so its outcome is independent of it and it reports success
whenever the writes succeed. -/
theorem C6_upload_verification
    (fileName fileContent checkOutput : String) :
    (DMClean.uploadCommands fileName fileContent).get? 3 =
      some (DMClean.uploadCheckCommand fileName) ∧
    (JsStr.includes checkOutput "True" = false →
      DMClean.uploadFile checkOutput =
        Except.error
          "Erro no upload: Error: Falha na verificação do upload do arquivo.") ∧
    (JsStr.includes checkOutput "True" = true →
      DMClean.uploadFile checkOutput = Except.ok ()) ∧
    (∀ contentLines, (DM.uploadCommandsOld fileName contentLines).getLast? =
      some (DMClean.uploadCheckCommand fileName)) ∧
    (∀ writesOk otherOutput,
      DM.uploadFileOld writesOk checkOutput =
        DM.uploadFileOld writesOk otherOutput) := by
  refine ⟨rfl, ?_, ?_, ?_, ?_⟩
  · intro h
    simp [DMClean.uploadFile, h]
  · intro h
    simp [DMClean.uploadFile, h]
  · intro contentLines
    unfold DM.uploadCommandsOld
    rw [List.getLast?_append_of_ne_nil _ (by simp)]
    rfl
  · intro writesOk otherOutput
    rfl

/-- Witness for C6's amended theorem: a check output without `'True'` makes
the clean upload fail. -/
theorem C6_upload_verification_witness :
    JsStr.includes "False\r\n>>> " "True" = false ∧
    DMClean.uploadFile "False\r\n>>> " =
      Except.error
        "Erro no upload: Error: Falha na verificação do upload do arquivo." :=
  ⟨by decide,
   (C6_upload_verification "main.py" "" "False\r\n>>> ").2.1 (by decide)⟩

/-!
## `FileManager.listFiles` of `src/fileManager.ts` (lines 11-52)

The raw REPL output is matched against the regex `/(\[.*\])/s`: with the
`s` flag and a greedy `.*`, a match exists iff some `'['` is followed
(later) by some `']'`, and the captured group then runs from the first such
`'['` to the last `']'` of the whole output.  If there is no match the
function logs a warning and returns `[]`.  If there is a match the slice is
fed to `JSON.parse` inside a `try` whose `catch` throws
`'Falha ao analisar a lista de arquivos retornada pelo dispositivo.'` —
i.e. a bracketed but unparseable slice throws rather than returning `[]`.
`JSON.parse` is modelled by a fuel-bounded JSON reader (`parseJson`);
numeric values keep their integer part, which is exact for the integer
sizes `os.ilistdir` reports.
-/

namespace FM

/-- Index of the first occurrence of `c`. -/
def firstIdxOf (c : Char) : List Char → Option Nat
  | [] => none
  | x :: xs => if x = c then some 0 else (firstIdxOf c xs).map (· + 1)

/-- Index of the last occurrence of `c`. -/
def lastIdxOf (c : Char) (l : List Char) : Option Nat :=
  (firstIdxOf c l.reverse).map fun i => l.length - 1 - i

/-- The group captured by `rawOutput.match(/(\[.*\])/s)`. -/
def extractBracketSlice (raw : String) : Option String :=
  match firstIdxOf '[' raw.data, lastIdxOf ']' raw.data with
  | some i, some j =>
      if i < j then some (String.mk ((raw.data.drop i).take (j - i + 1)))
      else none
  | _, _ => none

/-- JSON values. -/
inductive JVal
  | jnull
  | jbool (b : Bool)
  | jnum (n : Int)
  | jstr (s : String)
  | jarr (xs : List JVal)
  | jobj (fields : List (String × JVal))
  deriving Repr

/-- JSON whitespace skipping. -/
def skipWs : List Char → List Char
  | [] => []
  | c :: cs =>
      if c = ' ' ∨ c = '\n' ∨ c = '\r' ∨ c = '\t' then skipWs cs else c :: cs

/-- Hexadecimal digit value. -/
def hexVal (c : Char) : Option Nat :=
  if '0' ≤ c ∧ c ≤ '9' then some (c.toNat - 48)
  else if 'a' ≤ c ∧ c ≤ 'f' then some (c.toNat - 87)
  else if 'A' ≤ c ∧ c ≤ 'F' then some (c.toNat - 55)
  else none

/-- Body of a JSON string literal (after the opening quote), with the
standard escapes; raw control characters and unknown escapes are rejected
as `JSON.parse` does. -/
def parseStringBody : Nat → List Char → Option (List Char × List Char)
  | 0, _ => none
  | _, [] => none
  | fuel + 1, c :: cs =>
      if c = '"' then some ([], cs)
      else if c = '\\' then
        match cs with
        | [] => none
        | e :: cs2 =>
            let dec : Option (List Char × List Char) :=
              if e = '"' then some (['"'], cs2)
              else if e = '\\' then some (['\\'], cs2)
              else if e = '/' then some (['/'], cs2)
              else if e = 'n' then some (['\n'], cs2)
              else if e = 'r' then some (['\r'], cs2)
              else if e = 't' then some (['\t'], cs2)
              else if e = 'b' then some ([Char.ofNat 8], cs2)
              else if e = 'f' then some ([Char.ofNat 12], cs2)
              else if e = 'u' then
                match cs2 with
                | h1 :: h2 :: h3 :: h4 :: cs3 =>
                    match hexVal h1, hexVal h2, hexVal h3, hexVal h4 with
                    | some a, some b, some c', some d =>
                        some ([Char.ofNat (((a * 16 + b) * 16 + c') * 16 + d)], cs3)
                    | _, _, _, _ => none
                | _ => none
              else none
            match dec with
            | some (chs, rest) =>
                match parseStringBody fuel rest with
                | some (tail, rem) => some (chs ++ tail, rem)
                | none => none
            | none => none
      else if c.toNat < 32 then none
      else
        match parseStringBody fuel cs with
        | some (tail, rem) => some (c :: tail, rem)
        | none => none

/-- Mandatory digits of an exponent part. -/
def parseExpDigits (cs : List Char) : Option (List Char) :=
  let cs2 :=
    match cs with
    | '+' :: t => t
    | '-' :: t => t
    | _ => cs
  let p := DM.takeDigits cs2
  if p.1.isEmpty then none else some p.2

/-- Optional exponent part of a JSON number. -/
def parseExpPart : List Char → Option (List Char)
  | 'e' :: r => parseExpDigits r
  | 'E' :: r => parseExpDigits r
  | cs => some cs

/-- Optional fractional part of a JSON number (digits required after the
point). -/
def parseFracPart : List Char → Option (List Char)
  | '.' :: r =>
      let p := DM.takeDigits r
      if p.1.isEmpty then none else some p.2
  | cs => some cs

/-- A JSON number; the value kept is its integer part (exact for the
integer sizes the device reports). -/
def parseNumber (cs : List Char) : Option (Int × List Char) :=
  let sp : Bool × List Char :=
    match cs with
    | '-' :: r => (true, r)
    | _ => (false, cs)
  let p := DM.takeDigits sp.2
  if p.1.isEmpty then none
  else
    let n : Nat := p.1.foldl (fun acc c => acc * 10 + (c.toNat - 48)) 0
    match parseFracPart p.2 with
    | none => none
    | some r2 =>
        match parseExpPart r2 with
        | none => none
        | some r3 => some (if sp.1 then -(n : Int) else (n : Int), r3)

mutual

/-- A JSON value (fuel-bounded recursive descent). -/
def parseVal : Nat → List Char → Option (JVal × List Char)
  | 0, _ => none
  | fuel + 1, cs0 =>
      let cs := skipWs cs0
      if JsStr.listHasPrefix "null".data cs then some (.jnull, cs.drop 4)
      else if JsStr.listHasPrefix "true".data cs then some (.jbool true, cs.drop 4)
      else if JsStr.listHasPrefix "false".data cs then some (.jbool false, cs.drop 5)
      else
        match cs with
        | '"' :: rest =>
            match parseStringBody (rest.length + 1) rest with
            | some (chs, rem) => some (.jstr (String.mk chs), rem)
            | none => none
        | '[' :: rest =>
            match skipWs rest with
            | ']' :: rem => some (.jarr [], rem)
            | rest' =>
                match parseElems fuel rest' with
                | some (xs, rem) => some (.jarr xs, rem)
                | none => none
        | '{' :: rest =>
            match skipWs rest with
            | '}' :: rem => some (.jobj [], rem)
            | rest' =>
                match parseFields fuel rest' with
                | some (fs, rem) => some (.jobj fs, rem)
                | none => none
        | _ =>
            match parseNumber cs with
            | some (n, rem) => some (.jnum n, rem)
            | none => none

/-- Comma-separated array elements up to the closing bracket. -/
def parseElems : Nat → List Char → Option (List JVal × List Char)
  | 0, _ => none
  | fuel + 1, cs =>
      match parseVal fuel cs with
      | none => none
      | some (v, rem) =>
          match skipWs rem with
          | ',' :: r2 =>
              match parseElems fuel r2 with
              | some (xs, rem2) => some (v :: xs, rem2)
              | none => none
          | ']' :: r2 => some ([v], r2)
          | _ => none

/-- Comma-separated object members up to the closing brace. -/
def parseFields : Nat → List Char → Option (List (String × JVal) × List Char)
  | 0, _ => none
  | fuel + 1, cs0 =>
      match skipWs cs0 with
      | '"' :: rest =>
          match parseStringBody (rest.length + 1) rest with
          | none => none
          | some (key, r1) =>
              match skipWs r1 with
              | ':' :: r2 =>
                  match parseVal fuel r2 with
                  | none => none
                  | some (v, r3) =>
                      match skipWs r3 with
                      | ',' :: r4 =>
                          match parseFields fuel r4 with
                          | some (fs, rem) => some ((String.mk key, v) :: fs, rem)
                          | none => none
                      | '}' :: r4 => some ([(String.mk key, v)], r4)
                      | _ => none
              | _ => none
      | _ => none

end

/-- `JSON.parse`, requiring the whole input consumed (up to whitespace). -/
def parseJson (s : String) : Option JVal :=
  match parseVal (s.data.length + 1) s.data with
  | some (v, rem) => if (skipWs rem).isEmpty then some v else none
  | none => none

/-- Property access on a parsed JSON value (`undefined` is `none`; for
duplicate keys `JSON.parse` keeps the last). -/
def jsGetField (v : JVal) (key : String) : Option JVal :=
  match v with
  | .jobj fields => (fields.reverse.find? fun f => f.1 == key).map fun f => f.2
  | _ => none

/-- JavaScript string coercion where the code interpolates `item.name`. -/
def asString : Option JVal → Option String
  | some (.jstr s) => some s
  | _ => none

/-- The `ESP32File` built from one parsed item (lines 37-43); `deviceId` is
carried through unchanged by the source and omitted here.  `path` is
`none` when `item.name` is not a string (the JS template would stringify
the raw value). -/
structure FMFile where
  name : Option JVal
  path : Option String
  isDirectory : Option JVal
  size : Option JVal
  deriving Repr

/-- The mapping applied to each parsed item. -/
def toFMFile (remotePath : String) (item : JVal) : FMFile :=
  { name := jsGetField item "name"
    path := (asString (jsGetField item "name")).map fun n =>
      if remotePath == "/" then "/" ++ n else remotePath ++ "/" ++ n
    isDirectory := jsGetField item "is_dir"
    size := jsGetField item "size" }

/-- The error thrown when the bracketed slice fails to parse. -/
def fmParseError : String :=
  "Falha ao analisar a lista de arquivos retornada pelo dispositivo."

/-- `listFiles` given the raw output captured for the listing command. -/
def listFiles (remotePath rawOutput : String) : Except String (List FMFile) :=
  match extractBracketSlice rawOutput with
  | none => Except.ok []
  | some slice =>
      match parseJson slice with
      | some (JVal.jarr items) => Except.ok (items.map (toFMFile remotePath))
      | _ => Except.error fmParseError

end FM

example : FM.parseJson "[]" = some (FM.JVal.jarr []) := rfl

example :
    FM.listFiles "/" " [ \x7b \"name\": \"a.py\", \"is_dir\": false, \"size\": 12 \x7d ] " =
      Except.ok [{ name := some (FM.JVal.jstr "a.py"), path := some "/a.py",
                   isDirectory := some (FM.JVal.jbool false),
                   size := some (FM.JVal.jnum 12) }] := rfl

/-- C7 counterexample: the device output `">>> [,]\r\n>>> "` contains a
bracketed region `"[,]"` (so the regex matches) that is not parseable JSON,
and `listFiles` THROWS the parse error instead of resolving with an empty
entry list as the claim states. -/
theorem C7_counterexample :
    FM.extractBracketSlice ">>> [,]\r\n>>> " = some "[,]" ∧
    FM.parseJson "[,]" = none ∧
    FM.listFiles "/" ">>> [,]\r\n>>> " = Except.error FM.fmParseError := by
  refine ⟨rfl, rfl, rfl⟩

/-- C7 (amended): when the raw output contains no bracketed `[...]` region
at all (the regex does not match), `listFiles` resolves with an empty entry
list and only logs a diagnostic; when a bracketed region exists but fails
JSON parsing, the operation throws the parse error; when it parses as an
array, the operation resolves with the mapped entries. -/
theorem C7_listfiles_empty_or_throw (remotePath raw : String) :
    (FM.extractBracketSlice raw = none →
      FM.listFiles remotePath raw = Except.ok []) ∧
    (∀ slice, FM.extractBracketSlice raw = some slice →
      FM.parseJson slice = none →
      FM.listFiles remotePath raw = Except.error FM.fmParseError) ∧
    (∀ slice items, FM.extractBracketSlice raw = some slice →
      FM.parseJson slice = some (FM.JVal.jarr items) →
      FM.listFiles remotePath raw =
        Except.ok (items.map (FM.toFMFile remotePath))) := by
  refine ⟨?_, ?_, ?_⟩
  · intro h
    simp [FM.listFiles, h]
  · intro slice h1 h2
    simp [FM.listFiles, h1, h2]
  · intro slice items h1 h2
    simp [FM.listFiles, h1, h2]

/-- Witness for C7's amended theorem: output with no bracketed region
yields the empty list. -/
theorem C7_listfiles_empty_or_throw_witness :
    FM.extractBracketSlice "Traceback: no such dir" = none ∧
    FM.listFiles "/" "Traceback: no such dir" = Except.ok [] :=
  ⟨rfl, (C7_listfiles_empty_or_throw "/" "Traceback: no such dir").1 rfl⟩

namespace JsStr

/-- `listContains` is monotone under extending the haystack on the left. -/
theorem listContains_mono_left (a tail pat : List Char)
    (h : listContains tail pat = true) : listContains (a ++ tail) pat = true := by
  induction a with
  | nil => exact h
  | cons c cs ih => simp [listContains, ih]

/-- Every list contains itself. -/
theorem listContains_self (pat : List Char) : listContains pat pat = true := by
  simpa using listContains_append_left [] pat

end JsStr

/-!
## Deleting remote files: `deleteFile` of `src/deviceManager.ts`
(lines 769-833) and of `src/fileManager.ts` (lines 57-78)

The `deviceManager.ts` variant writes a remote script that prints
`DELETE_SUCCESS`, or catches the exception and prints
`"DELETE_ERROR:", str(e)`; its `onData` handler accumulates chunks and, on
the first chunk containing `DELETE_SUCCESS`, resolves; on the first chunk
containing `DELETE_ERROR`, rejects with the fixed message
`'Erro ao excluir arquivo/diretório'` (the accumulated remote text is never
used); with neither sentinel the 10 s timer rejects with
`'Timeout ao excluir arquivo'`.

The `fileManager.ts` variant runs `rm_recursive`, whose remote `except`
prints `"Error: " + str(e)`; the host checks `output.includes("Error")` and
throws `` `Não foi possível deletar '${remotePath}': ${output}` `` — a
message that carries the whole output, remote exception text included.
-/

namespace DM

/-- `filePath.replace(/"/g, '\\"')`. -/
def jsEscapeQuotes (s : String) : String :=
  String.mk (s.data.flatMap fun c => if c = '"' then ['\\', '"'] else [c])

/-- The remote delete script of `deviceManager.ts` (lines 809-823). -/
def deleteCommandOld (filePath : String) (isDirectory : Bool) : String :=
  if isDirectory then
    "\ntry:\n    import os\n    os.rmdir(\"" ++ jsEscapeQuotes filePath ++
      "\")\n    print(\"DELETE_SUCCESS\")\nexcept Exception as e:\n    print(\"DELETE_ERROR:\", str(e))\n"
  else
    "\ntry:\n    import os\n    os.remove(\"" ++ jsEscapeQuotes filePath ++
      "\")  \n    print(\"DELETE_SUCCESS\")\nexcept Exception as e:\n    print(\"DELETE_ERROR:\", str(e))\n"

/-- Outcome of the `deviceManager.ts` delete promise. -/
inductive DeleteOutcome
  | success
  | rejectedMsg (msg : String)
  deriving Repr, DecidableEq

/-- The `onData` scan of `deleteFile` (lines 791-804) over the chunks
delivered within the 10 s window. -/
def deleteFileOld : List String → DeleteOutcome
  | [] => DeleteOutcome.rejectedMsg "Timeout ao excluir arquivo"
  | c :: cs =>
      if JsStr.includes c "DELETE_SUCCESS" then DeleteOutcome.success
      else if JsStr.includes c "DELETE_ERROR" then
        DeleteOutcome.rejectedMsg "Erro ao excluir arquivo/diretório"
      else deleteFileOld cs

end DM

namespace FM

/-- `FileManager.deleteFile` given the output captured for the
`rm_recursive` command (lines 74-77). -/
def deleteFileFm (remotePath output : String) : Except String Unit :=
  if JsStr.includes output "Error" then
    Except.error ("Não foi possível deletar '" ++ remotePath ++ "': " ++ output)
  else Except.ok ()

end FM

/-- C8 counterexample: deleting a non-existent path makes the remote script
print `DELETE_ERROR: [Errno 2] ENOENT`; `deviceManager.ts`'s `deleteFile`
detects the sentinel and rejects — but with the fixed message
`'Erro ao excluir arquivo/diretório'`, which does NOT preserve the remote
exception text (`ENOENT` nowhere in it), refuting the preservation part of
the claim for this cited variant. -/
theorem C8_counterexample :
    DM.deleteFileOld ["DELETE_ERROR: [Errno 2] ENOENT"] =
      DM.DeleteOutcome.rejectedMsg "Erro ao excluir arquivo/diretório" ∧
    JsStr.includes "Erro ao excluir arquivo/diretório" "ENOENT" = false ∧
    "Erro ao excluir arquivo/diretório" ≠ "Timeout ao excluir arquivo" := by
  refine ⟨rfl, by decide, by decide⟩

/-- C8 (amended): deleting a non-existent path resolves as a structured
remote-error failure, not a timeout and not a transport fault, in both
variants — the error sentinel chunk triggers an immediate structured
rejection.  The `fileManager.ts` variant's thrown message preserves the
remote exception text (the whole captured output, `"Error: " + str(e)`
included, is embedded in the message); the `deviceManager.ts` variant
rejects with a fixed message that drops the remote text. -/
theorem C8_delete_missing_path_structured_error (remotePath output : String) :
    (JsStr.includes output "Error" = true →
      FM.deleteFileFm remotePath output =
        Except.error
          ("Não foi possível deletar '" ++ remotePath ++ "': " ++ output) ∧
      JsStr.includes
        ("Não foi possível deletar '" ++ remotePath ++ "': " ++ output)
        output = true) ∧
    (JsStr.includes output "Error" = false →
      FM.deleteFileFm remotePath output = Except.ok ()) ∧
    (∀ laterChunks, JsStr.includes output "DELETE_SUCCESS" = false →
      JsStr.includes output "DELETE_ERROR" = true →
      DM.deleteFileOld (output :: laterChunks) =
        DM.DeleteOutcome.rejectedMsg "Erro ao excluir arquivo/diretório") := by
  refine ⟨?_, ?_, ?_⟩
  · intro h
    refine ⟨by simp [FM.deleteFileFm, h], ?_⟩
    show JsStr.listContains _ _ = true
    simp only [String.data_append, List.append_assoc]
    refine JsStr.listContains_mono_left _ _ _ ?_
    refine JsStr.listContains_mono_left _ _ _ ?_
    refine JsStr.listContains_mono_left _ _ _ ?_
    exact JsStr.listContains_self _
  · intro h
    simp [FM.deleteFileFm, h]
  · intro laterChunks h1 h2
    simp [DM.deleteFileOld, h1, h2]

/-- Witness for C8's amended theorem: output carrying the remote `OSError`
text produces a thrown message that contains that output. -/
theorem C8_delete_missing_path_structured_error_witness :
    JsStr.includes "Error: [Errno 2] ENOENT" "Error" = true ∧
    FM.deleteFileFm "/nope.py" "Error: [Errno 2] ENOENT" =
      Except.error
        ("Não foi possível deletar '" ++ "/nope.py" ++ "': " ++
          "Error: [Errno 2] ENOENT") ∧
    JsStr.includes
      ("Não foi possível deletar '" ++ "/nope.py" ++ "': " ++
        "Error: [Errno 2] ENOENT") "Error: [Errno 2] ENOENT" = true :=
  ⟨by decide,
   ((C8_delete_missing_path_structured_error "/nope.py"
       "Error: [Errno 2] ENOENT").1 (by decide)).1,
   ((C8_delete_missing_path_structured_error "/nope.py"
       "Error: [Errno 2] ENOENT").1 (by decide)).2⟩
